import Mathlib

/- Verification of the `StarCalculator` stellar-property resolver (src/only.py).

The Python program is shallowly embedded: float arithmetic is idealized as real
arithmetic (`ℝ`, with `Real.rpow` for `**`), the mutable `StarCalculator` object
becomes an explicit `StarState` record, Python `raise ValueError` becomes
`Except.error` with an error kind per raise site, and the interactive
metallicity prompt of `calculate_from_mass` is modelled by an explicit
`oracle : Option ℝ` argument holding the reply the external input collaborator
would give (`none` = the collaborator would return empty input). -/

namespace StellarCalc

/-- Error kinds, one per `raise ValueError` site of the source, named following
the specification (section 7). -/
inductive Err where
  | missingSeed
  | invalidMass
  | invalidTemperature
  | missingSpectralType
  | unknownSpectralType

/-- The mutable attribute state of a `StarCalculator` object.  Every field is
optional, mirroring the `None` defaults of `__init__`. -/
structure StarState where
  mass : Option ℝ
  temperature : Option ℝ
  lifespan : Option ℝ
  spectral_type : Option String
  metallicity : Option ℝ

/-- `StarCalculator.__init__`: stores the five arguments, defaulting
`metallicity` to `1.0` when it is not provided (`None`). -/
def init (mass temperature lifespan : Option ℝ) (spectral_type : Option String)
    (metallicity : Option ℝ) : StarState :=
  { mass := mass, temperature := temperature, lifespan := lifespan,
    spectral_type := spectral_type, metallicity := some (metallicity.getD 1) }

/-- Python truthiness of an optional float attribute: `None` and `0.0` are
falsy, every other float (including negative ones) is truthy. -/
@[reducible] def truthyR (o : Option ℝ) : Prop := o ≠ none ∧ o ≠ some 0

/-- Python truthiness of an optional string attribute: `None` and `""` are
falsy. -/
@[reducible] def truthyS (o : Option String) : Prop := o ≠ none ∧ o ≠ some ""

/-- `StarCalculator.determine_spectral_type_with_subclass` (lines 83-120):
the chain of `if`/`elif` temperature bands; each band appends the integer
subclass `min(9, (upper - T) // divisor)` to its letter, the final `else`
appends the empty subclass to the sentinel label. -/
noncomputable def determine_spectral_type_with_subclass (temperature : ℝ) : String :=
  if 60000 ≤ temperature then
    "Wolf Rayet Star" ++ toString (0 : ℤ)
  else if 30000 ≤ temperature ∧ temperature < 60000 then
    "O" ++ toString (min 9 ⌊(60000 - temperature) / 3000⌋)
  else if 10000 ≤ temperature ∧ temperature < 30000 then
    "B" ++ toString (min 9 ⌊(30000 - temperature) / 2000⌋)
  else if 7500 ≤ temperature ∧ temperature < 10000 then
    "A" ++ toString (min 9 ⌊(10000 - temperature) / 250⌋)
  else if 6000 ≤ temperature ∧ temperature < 7500 then
    "F" ++ toString (min 9 ⌊(7500 - temperature) / 150⌋)
  else if 5200 ≤ temperature ∧ temperature < 6000 then
    "G" ++ toString (min 9 ⌊(6000 - temperature) / 80⌋)
  else if 3700 ≤ temperature ∧ temperature < 5200 then
    "K" ++ toString (min 9 ⌊(5200 - temperature) / 150⌋)
  else if 2400 ≤ temperature ∧ temperature < 3700 then
    "M" ++ toString (min 9 ⌊(3700 - temperature) / 130⌋)
  else if 1300 ≤ temperature ∧ temperature < 2400 then
    "L" ++ toString (min 9 ⌊(2400 - temperature) / 100⌋)
  else if 600 ≤ temperature ∧ temperature < 1300 then
    "T" ++ toString (min 9 ⌊(1300 - temperature) / 70⌋)
  else
    "Below T type (Y dwarf or planet)" ++ ""

/-- The `spectral_type_dict` literal of `calculate_from_spectral_type`
(lines 56-66): leading letter to `(reference mass, reference temperature)`. -/
noncomputable def spectral_type_dict (c : Char) : Option (ℝ × ℝ) :=
  if c = 'O' then some (20, 50000)
  else if c = 'B' then some (2.5, 25000)
  else if c = 'A' then some (2.0, 10000)
  else if c = 'F' then some (1.4, 7500)
  else if c = 'G' then some (1.1, 5800)
  else if c = 'K' then some (0.8, 4500)
  else if c = 'M' then some (0.5, 3500)
  else if c = 'L' then some (0.08, 2200)
  else if c = 'T' then some (0.05, 1200)
  else none

/-- The subclass parse of line 70:
`int(st[1:]) if len(st) > 1 and st[1:].isdigit() else 0`. -/
def parseSubclass (st : String) : ℕ :=
  if 1 < st.length ∧ (st.drop 1).all Char.isDigit then
    (st.drop 1).foldl (fun n c => n * 10 + (c.toNat - '0'.toNat)) 0
  else 0

/-- Lines 68-73 of `calculate_from_spectral_type`: reference lookup on the
leading letter, subclass parse, and the adjusted
`(mass, temperature) = (base_mass, base_temp) * (1 + 0.01 * (5 - subclass))`. -/
noncomputable def spectralAdjusted (st : String) : Option (ℝ × ℝ) :=
  match spectral_type_dict st.front with
  | none => none
  | some (base_mass, base_temp) =>
    some (base_mass * (1 + 0.01 * (5 - (parseSubclass st : ℝ))),
          base_temp * (1 + 0.01 * (5 - (parseSubclass st : ℝ))))

/-- `StarCalculator.calculate_from_mass` (lines 19-42).  The guard is the
Python falsy test `if not self.mass`.  The final record sets
`temperature = 5800 * mass ** 0.505`, the piecewise lifespan with threshold
`0.43`, the recomputed spectral type, and consults the `oracle` for
metallicity only when the attribute is `None` (line 41). -/
noncomputable def calculate_from_mass (oracle : Option ℝ) (s : StarState) :
    Except Err StarState :=
  match s.mass with
  | none => Except.error Err.invalidMass
  | some m =>
    if m = 0 then Except.error Err.invalidMass
    else
      Except.ok
        { s with
          temperature := some (5800 * m ^ (0.505 : ℝ)),
          lifespan := some (if 0.43 ≤ m then 10 * m ^ (-2.5 : ℝ)
                            else 15 * m ^ (-1.8 : ℝ)),
          spectral_type :=
            some (determine_spectral_type_with_subclass (5800 * m ^ (0.505 : ℝ))),
          metallicity :=
            if s.metallicity = none then some (oracle.getD 1) else s.metallicity }

/-- `StarCalculator.calculate_from_temperature` (lines 44-50): falsy guard on
`temperature`, mass estimate `(temperature / 5800) ** (1 / 0.505)`, then the
mass path. -/
noncomputable def calculate_from_temperature (oracle : Option ℝ) (s : StarState) :
    Except Err StarState :=
  match s.temperature with
  | none => Except.error Err.invalidTemperature
  | some t =>
    if t = 0 then Except.error Err.invalidTemperature
    else calculate_from_mass oracle
      { s with mass := some ((t / 5800) ^ ((1 : ℝ) / 0.505)) }

/-- `StarCalculator.calculate_from_spectral_type` (lines 52-81): falsy guard,
reference lookup and subclass adjustment (via `spectralAdjusted`), then either
the direct low-mass lifespan (mass `< 0.43`) or the full mass path. -/
noncomputable def calculate_from_spectral_type (oracle : Option ℝ) (s : StarState) :
    Except Err StarState :=
  match s.spectral_type with
  | none => Except.error Err.missingSpectralType
  | some st =>
    if st = "" then Except.error Err.missingSpectralType
    else
      match spectralAdjusted st with
      | none => Except.error Err.unknownSpectralType
      | some (m, t) =>
        if m < 0.43 then
          Except.ok { s with mass := some m, temperature := some t,
                             lifespan := some (15 * m ^ (-1.8 : ℝ)) }
        else
          calculate_from_mass oracle { s with mass := some m, temperature := some t }

/-- `StarCalculator.calculate_properties` (lines 9-17): the resolution
dispatcher, testing the three seed attributes for Python truthiness in the
order mass, temperature, spectral type. -/
noncomputable def calculate_properties (oracle : Option ℝ) (s : StarState) :
    Except Err StarState :=
  if truthyR s.mass then calculate_from_mass oracle s
  else if truthyR s.temperature then calculate_from_temperature oracle s
  else if truthyS s.spectral_type then calculate_from_spectral_type oracle s
  else Except.error Err.missingSeed

/-- A temperature band as stated by the specification table (section 4.5):
half-open range `[lo, hi)`, letter, and subclass divisor. -/
structure SpecBand where
  lo : ℝ
  hi : ℝ
  letter : String
  divisor : ℝ

/-- The specification's band table, in the stated descending-temperature
order. -/
noncomputable def specBandTable : List SpecBand :=
  [⟨30000, 60000, "O", 3000⟩, ⟨10000, 30000, "B", 2000⟩, ⟨7500, 10000, "A", 250⟩,
   ⟨6000, 7500, "F", 150⟩, ⟨5200, 6000, "G", 80⟩, ⟨3700, 5200, "K", 150⟩,
   ⟨2400, 3700, "M", 130⟩, ⟨1300, 2400, "L", 100⟩, ⟨600, 1300, "T", 70⟩]

/-- First band (in list order) whose half-open range contains `t` — the
specification's "bands are checked in descending-temperature order; first
match wins". -/
noncomputable def lookupBand (t : ℝ) : List SpecBand → Option SpecBand
  | [] => none
  | b :: rest => if b.lo ≤ t ∧ t < b.hi then some b else lookupBand t rest

/-- The classifier exactly as the specification's claim states it: Wolf-Rayet
label with digit 0 at and above 60000, otherwise the first matching band of
the table with digit `min 9 ⌊(hi - t) / divisor⌋`, and the sentinel label with
empty digit when no band matches (below 600). -/
noncomputable def classifySpec (t : ℝ) : String :=
  if 60000 ≤ t then "Wolf Rayet Star0"
  else
    match lookupBand t specBandTable with
    | some b => b.letter ++ toString (min 9 ⌊(b.hi - t) / b.divisor⌋)
    | none => "Below T type (Y dwarf or planet)"

/-- The forward temperature formula inverts the mass estimate exactly over
the reals: `5800 * ((t / 5800) ^ (1 / 0.505)) ^ 0.505 = t` for `t > 0`. -/
lemma roundtrip (t : ℝ) (ht : 0 < t) :
    5800 * ((t / 5800) ^ ((1 : ℝ) / 0.505)) ^ (0.505 : ℝ) = t := by
  rw [← Real.rpow_mul (le_of_lt (by positivity : (0 : ℝ) < t / 5800))]
  norm_num
  field_simp

/-- Unfolding of `calculate_from_mass` on a state whose mass attribute holds a
truthy (nonzero) value. -/
lemma calculate_from_mass_ok (oracle : Option ℝ) (s : StarState) (m : ℝ)
    (hm : s.mass = some m) (h0 : m ≠ 0) :
    calculate_from_mass oracle s = Except.ok
      { s with
        temperature := some (5800 * m ^ (0.505 : ℝ)),
        lifespan := some (if 0.43 ≤ m then 10 * m ^ (-2.5 : ℝ)
                          else 15 * m ^ (-1.8 : ℝ)),
        spectral_type :=
          some (determine_spectral_type_with_subclass (5800 * m ^ (0.505 : ℝ))),
        metallicity :=
          if s.metallicity = none then some (oracle.getD 1) else s.metallicity } := by
  rcases s with ⟨ms, ts, ls, sps, mets⟩
  cases hm
  simp only [calculate_from_mass]
  rw [if_neg h0]

/-- The mass path can only fail with `invalidMass`, never with
`invalidTemperature`. -/
lemma calculate_from_mass_ne_invalidTemperature (oracle : Option ℝ) (s : StarState) :
    calculate_from_mass oracle s ≠ Except.error Err.invalidTemperature := by
  rcases s with ⟨ms, ts, ls, sps, mets⟩
  cases ms with
  | none => simp [calculate_from_mass]
  | some m =>
    simp only [calculate_from_mass]
    by_cases h : m = 0
    · rw [if_pos h]; simp
    · rw [if_neg h]; simp

/-- The classifier at the solar temperature 5800 K: band G, subclass
`(6000 - 5800) // 80 = 2`. -/
lemma classify_5800 : determine_spectral_type_with_subclass 5800 = "G2" := by
  rw [determine_spectral_type_with_subclass]
  rw [if_neg (by norm_num), if_neg (by norm_num), if_neg (by norm_num),
    if_neg (by norm_num), if_neg (by norm_num),
    if_pos (by norm_num : (5200 : ℝ) ≤ 5800 ∧ (5800 : ℝ) < 6000)]
  have h2 : ⌊((6000 : ℝ) - 5800) / 80⌋ = 2 := by
    rw [Int.floor_eq_iff]; norm_num
  rw [h2]
  decide

/-- The classifier at the band boundary 30000 K: band O (its range is
`[30000, 60000)`), subclass `min 9 ((60000 - 30000) // 3000) = 9`. -/
lemma classify_30000 : determine_spectral_type_with_subclass 30000 = "O9" := by
  rw [determine_spectral_type_with_subclass]
  rw [if_neg (by norm_num),
    if_pos (by norm_num : (30000 : ℝ) ≤ 30000 ∧ (30000 : ℝ) < 60000)]
  have h2 : ⌊((60000 : ℝ) - 30000) / 3000⌋ = 10 := by
    rw [Int.floor_eq_iff]; norm_num
  rw [h2]
  decide

/-- Claim C2: for every positive mass seed the mass-based derivation sets
`temperature = 5800 * mass ^ 0.505` and `lifespan = 10 * mass ^ -2.5` when
`mass ≥ 0.43`, `15 * mass ^ -1.8` when `mass < 0.43`; in particular for
`mass = 1` it yields temperature 5800, lifespan 10, and spectral type "G2",
whose letter class is G. -/
theorem C2_mass_derivation :
    (∀ (oracle : Option ℝ) (s : StarState) (m : ℝ), s.mass = some m → 0 < m →
      (calculate_from_mass oracle s).map (fun r => r.temperature) =
        Except.ok (some (5800 * m ^ (0.505 : ℝ))) ∧
      (calculate_from_mass oracle s).map (fun r => r.lifespan) =
        Except.ok (some (if 0.43 ≤ m then 10 * m ^ (-2.5 : ℝ)
                         else 15 * m ^ (-1.8 : ℝ)))) ∧
    ((calculate_from_mass none (init (some 1) none none none none)).map
        (fun r => r.temperature) = Except.ok (some 5800) ∧
      (calculate_from_mass none (init (some 1) none none none none)).map
        (fun r => r.lifespan) = Except.ok (some 10) ∧
      (calculate_from_mass none (init (some 1) none none none none)).map
        (fun r => r.spectral_type) = Except.ok (some "G2") ∧
      "G2".front = 'G') := by
  constructor
  · intro oracle s m hm h0
    rw [calculate_from_mass_ok oracle s m hm (ne_of_gt h0)]
    exact ⟨rfl, rfl⟩
  · have hrec := calculate_from_mass_ok none (init (some 1) none none none none) 1
      rfl one_ne_zero
    refine ⟨?_, ?_, ?_, by decide⟩
    · rw [hrec]; simp [Except.map, Real.one_rpow]
    · rw [hrec]; simp only [Except.map]
      rw [if_pos (by norm_num : (0.43 : ℝ) ≤ 1), Real.one_rpow, mul_one]
    · rw [hrec]; simp only [Except.map, Real.one_rpow, mul_one, classify_5800]

/-- Witness for C2 at the concrete mass 2. -/
theorem C2_mass_derivation_witness :
    (init (some 2) none none none none).mass = some 2 ∧ (0 : ℝ) < 2 ∧
    (calculate_from_mass none (init (some 2) none none none none)).map
        (fun r => r.temperature) = Except.ok (some (5800 * (2 : ℝ) ^ (0.505 : ℝ))) := by
  refine ⟨rfl, by norm_num, ?_⟩
  exact (C2_mass_derivation.1 none _ 2 rfl (by norm_num)).1

/-- Claim C3: for every positive temperature seed `t`, the temperature path
stores `mass = (t / 5800) ^ (1 / 0.505)` and recomputes the temperature from
that mass by the forward formula; over the reals the recomputed temperature
equals `t` exactly. -/
theorem C3_temperature_roundtrip : ∀ (oracle : Option ℝ) (s : StarState) (t : ℝ),
    s.temperature = some t → 0 < t →
    (calculate_from_temperature oracle s).map (fun r => r.mass) =
      Except.ok (some ((t / 5800) ^ ((1 : ℝ) / 0.505))) ∧
    (calculate_from_temperature oracle s).map (fun r => r.temperature) =
      Except.ok (some (5800 * ((t / 5800) ^ ((1 : ℝ) / 0.505)) ^ (0.505 : ℝ))) ∧
    (calculate_from_temperature oracle s).map (fun r => r.temperature) =
      Except.ok (some t) := by
  intro oracle s t ht h0
  rcases s with ⟨ms, ts, ls, sps, mets⟩
  cases ht
  simp only [calculate_from_temperature]
  rw [if_neg (ne_of_gt h0)]
  rw [calculate_from_mass_ok _ _ ((t / 5800) ^ ((1 : ℝ) / 0.505)) rfl
    (ne_of_gt (Real.rpow_pos_of_pos (by positivity) _))]
  refine ⟨rfl, rfl, ?_⟩
  simp only [Except.map]
  rw [roundtrip t h0]

/-- Witness for C3 at the concrete temperature 5800. -/
theorem C3_temperature_roundtrip_witness :
    (init none (some 5800) none none none).temperature = some 5800 ∧
    (0 : ℝ) < 5800 ∧
    (calculate_from_temperature none (init none (some 5800) none none none)).map
      (fun r => r.temperature) = Except.ok (some 5800) := by
  refine ⟨rfl, by norm_num, ?_⟩
  exact (C3_temperature_roundtrip none _ 5800 rfl (by norm_num)).2.2

/-- Claim C4: the source classifier agrees everywhere with the
specification's band table read as a descending-order first-match lookup,
with digit `min 9 ⌊(hi - t) / divisor⌋`, Wolf-Rayet label with digit 0 at and
above 60000, and the sentinel label with empty digit below 600. -/
theorem C4_classifier_refines_table :
    ∀ t : ℝ, determine_spectral_type_with_subclass t = classifySpec t := by
  intro t
  rw [determine_spectral_type_with_subclass, classifySpec]
  simp only [specBandTable, lookupBand]
  by_cases h1 : (60000 : ℝ) ≤ t
  · rw [if_pos h1, if_pos h1]
    decide
  · rw [if_neg h1, if_neg h1]
    by_cases h2 : (30000 : ℝ) ≤ t ∧ t < 60000
    · rw [if_pos h2, if_pos h2]
    · rw [if_neg h2, if_neg h2]
      by_cases h3 : (10000 : ℝ) ≤ t ∧ t < 30000
      · rw [if_pos h3, if_pos h3]
      · rw [if_neg h3, if_neg h3]
        by_cases h4 : (7500 : ℝ) ≤ t ∧ t < 10000
        · rw [if_pos h4, if_pos h4]
        · rw [if_neg h4, if_neg h4]
          by_cases h5 : (6000 : ℝ) ≤ t ∧ t < 7500
          · rw [if_pos h5, if_pos h5]
          · rw [if_neg h5, if_neg h5]
            by_cases h6 : (5200 : ℝ) ≤ t ∧ t < 6000
            · rw [if_pos h6, if_pos h6]
            · rw [if_neg h6, if_neg h6]
              by_cases h7 : (3700 : ℝ) ≤ t ∧ t < 5200
              · rw [if_pos h7, if_pos h7]
              · rw [if_neg h7, if_neg h7]
                by_cases h8 : (2400 : ℝ) ≤ t ∧ t < 3700
                · rw [if_pos h8, if_pos h8]
                · rw [if_neg h8, if_neg h8]
                  by_cases h9 : (1300 : ℝ) ≤ t ∧ t < 2400
                  · rw [if_pos h9, if_pos h9]
                  · rw [if_neg h9, if_neg h9]
                    by_cases h10 : (600 : ℝ) ≤ t ∧ t < 1300
                    · rw [if_pos h10, if_pos h10]
                    · rw [if_neg h10, if_neg h10]
                      show "Below T type (Y dwarf or planet)" ++ "" =
                        "Below T type (Y dwarf or planet)"
                      decide

/-- Claim C1: the dispatcher trusts only the highest-precedence truthy seed
field in the order mass, temperature, spectral type — lower-precedence fields
are treated as not provided (results coincide with those on a state where they
are cleared, and derivation overwrites them) — and it fails with
`missingSeed` when none of the three seed fields is truthy. -/
theorem C1_dispatcher_precedence : ∀ (oracle : Option ℝ) (s : StarState),
    (truthyR s.mass →
      calculate_properties oracle s =
        calculate_from_mass oracle
          { s with temperature := none, spectral_type := none }) ∧
    (¬ truthyR s.mass → truthyR s.temperature →
      calculate_properties oracle s =
        calculate_from_temperature oracle { s with spectral_type := none }) ∧
    (¬ truthyR s.mass → ¬ truthyR s.temperature → truthyS s.spectral_type →
      calculate_properties oracle s = calculate_from_spectral_type oracle s) ∧
    (¬ truthyR s.mass → ¬ truthyR s.temperature → ¬ truthyS s.spectral_type →
      calculate_properties oracle s = Except.error Err.missingSeed) := by
  intro oracle s
  refine ⟨?_, ?_, ?_, ?_⟩
  · intro hm
    rw [calculate_properties, if_pos hm]
    rcases s with ⟨ms, ts, ls, sps, mets⟩
    cases ms with
    | none => exact absurd rfl hm.1
    | some m => rfl
  · intro hm ht
    rw [calculate_properties, if_neg hm, if_pos ht]
    rcases s with ⟨ms, ts, ls, sps, mets⟩
    cases ts with
    | none => exact absurd rfl ht.1
    | some t => rfl
  · intro hm ht hsp
    rw [calculate_properties, if_neg hm, if_neg ht, if_pos hsp]
  · intro hm ht hsp
    rw [calculate_properties, if_neg hm, if_neg ht, if_neg hsp]

/-- Witness for C1: with all seed fields absent the dispatcher fails with
`missingSeed`. -/
theorem C1_dispatcher_precedence_witness :
    ¬ truthyR (init none none none none none).mass ∧
    ¬ truthyR (init none none none none none).temperature ∧
    ¬ truthyS (init none none none none none).spectral_type ∧
    calculate_properties none (init none none none none none) =
      Except.error Err.missingSeed := by
  have h1 : ¬ truthyR (none : Option ℝ) := fun h => h.1 rfl
  have h2 : ¬ truthyS (none : Option String) := fun h => h.1 rfl
  exact ⟨h1, h1, h2, (C1_dispatcher_precedence none _).2.2.2 h1 h1 h2⟩

/-- Claim C5 counterexample: a strictly negative seed is NOT rejected by the
guards — `calculate_from_mass` at mass `-1` succeeds (no error at all), and
`calculate_from_temperature` at temperature `-1` does not fail with
`invalidTemperature` — refuting "fails exactly when absent or ≤ 0". -/
theorem C5_counterexample :
    (calculate_from_mass none ⟨some (-1), none, none, none, some 1⟩).map
      (fun r => r.mass) = Except.ok (some (-1)) ∧
    calculate_from_temperature none ⟨none, some (-1), none, none, some 1⟩ ≠
      Except.error Err.invalidTemperature := by
  constructor
  · rw [calculate_from_mass_ok none _ (-1) rfl (by norm_num)]
    rfl
  · simp only [calculate_from_temperature]
    rw [if_neg (by norm_num : (-1 : ℝ) ≠ 0)]
    exact calculate_from_mass_ne_invalidTemperature _ _

/-- Claim C5 amended: the mass-based derivation fails with `invalidMass`
exactly when the mass attribute is absent or exactly 0 (Python falsy), and the
temperature-based derivation fails with `invalidTemperature` exactly when the
temperature attribute is absent or exactly 0; strictly negative values pass
the guards. -/
theorem C5_amended_falsy_guards :
    (∀ (oracle : Option ℝ) (s : StarState),
      calculate_from_mass oracle s = Except.error Err.invalidMass ↔
        s.mass = none ∨ s.mass = some 0) ∧
    (∀ (oracle : Option ℝ) (s : StarState),
      calculate_from_temperature oracle s = Except.error Err.invalidTemperature ↔
        s.temperature = none ∨ s.temperature = some 0) := by
  constructor
  · intro oracle s
    rcases s with ⟨ms, ts, ls, sps, mets⟩
    cases ms with
    | none => simp [calculate_from_mass]
    | some m =>
      simp only [calculate_from_mass]
      by_cases h : m = 0
      · subst h; simp
      · rw [if_neg h]
        simp [h]
  · intro oracle s
    rcases s with ⟨ms, ts, ls, sps, mets⟩
    cases ts with
    | none => simp [calculate_from_temperature]
    | some t =>
      simp only [calculate_from_temperature]
      by_cases h : t = 0
      · subst h; simp
      · rw [if_neg h]
        exact iff_of_false (calculate_from_mass_ne_invalidTemperature _ _)
          (by simp [h])

/-- Witness for the amended C5 at the concrete absent-mass and absent-
temperature states. -/
theorem C5_amended_falsy_guards_witness :
    calculate_from_mass none ⟨none, none, none, none, some 1⟩ =
      Except.error Err.invalidMass ∧
    calculate_from_temperature none ⟨none, none, none, none, some 1⟩ =
      Except.error Err.invalidTemperature :=
  ⟨(C5_amended_falsy_guards.1 none ⟨none, none, none, none, some 1⟩).mpr
      (Or.inl rfl),
    (C5_amended_falsy_guards.2 none ⟨none, none, none, none, some 1⟩).mpr
      (Or.inl rfl)⟩

/-- Resolution of the boundary seed temperature 30000: the temperature
round-trips exactly (over the reals) and the stored spectral type is "O9". -/
lemma resolve_temp_30000 :
    (calculate_properties none (init none (some 30000) none none none)).map
      (fun r => r.spectral_type) = Except.ok (some "O9") := by
  show (calculate_properties none ⟨none, some 30000, none, none, some 1⟩).map
    (fun r => r.spectral_type) = Except.ok (some "O9")
  rw [calculate_properties]
  rw [if_neg (fun h => h.1 rfl : ¬ truthyR (none : Option ℝ))]
  rw [if_pos (⟨fun h => Option.noConfusion h,
    fun h => absurd (Option.some.inj h) (by norm_num)⟩ :
      truthyR (some (30000 : ℝ)))]
  simp only [calculate_from_temperature]
  rw [if_neg (by norm_num : (30000 : ℝ) ≠ 0)]
  rw [calculate_from_mass_ok _ _ (((30000 : ℝ) / 5800) ^ ((1 : ℝ) / 0.505)) rfl
    (ne_of_gt (Real.rpow_pos_of_pos (by positivity) _))]
  simp only [Except.map]
  rw [roundtrip 30000 (by norm_num), classify_30000]

/-- Claim C10 counterexample: the resolved spectral type for the boundary seed
temperature 30000 is "O9" — letter class O, not B as the claim states. -/
theorem C10_counterexample :
    (calculate_properties none (init none (some 30000) none none none)).map
      (fun r => r.spectral_type) = Except.ok (some "O9") ∧
    "O9".front = 'O' ∧ "O9".front ≠ 'B' :=
  ⟨resolve_temp_30000, by decide, by decide⟩

/-- Claim C10 amended: for the boundary seed temperature 30000 the resolved
record's spectral type lands in band O ("O9"): the classifier's ranges are
`[10000, 30000)` for B and `[30000, 60000)` for O, so 30000 itself falls in O,
and the resolution path's exact round-trip of the temperature through the mass
estimate returns exactly 30000 (just below the boundary, e.g. 29999, the
classifier gives a B type). -/
theorem C10_amended_boundary_lands_in_O :
    determine_spectral_type_with_subclass 30000 = "O9" ∧
    determine_spectral_type_with_subclass 29999 = "B0" ∧
    (calculate_properties none (init none (some 30000) none none none)).map
      (fun r => r.spectral_type) = Except.ok (some "O9") := by
  refine ⟨classify_30000, ?_, resolve_temp_30000⟩
  rw [determine_spectral_type_with_subclass]
  rw [if_neg (by norm_num), if_neg (by norm_num),
    if_pos (by norm_num : (10000 : ℝ) ≤ 29999 ∧ (29999 : ℝ) < 30000)]
  have h2 : ⌊((30000 : ℝ) - 29999) / 2000⌋ = 0 := by
    rw [Int.floor_eq_iff] ; norm_num
  rw [h2]
  decide

/-- The reference entry for letter M: 0.5 solar masses, 3500 K. -/
lemma dict_M : spectral_type_dict 'M' = some (0.5, 3500) := by
  rw [spectral_type_dict, if_neg (by decide), if_neg (by decide),
    if_neg (by decide), if_neg (by decide), if_neg (by decide),
    if_neg (by decide), if_pos rfl]

/-- The subclass parsed from "M5" is 5. -/
lemma parse_M5 : parseSubclass "M5" = 5 := by
  simp only [parseSubclass, String.drop_eq, String.all_eq, String.foldl_eq]
  decide

/-- The adjusted values for "M5" are exactly the raw M references. -/
lemma spectralAdjusted_M5 : spectralAdjusted "M5" = some (0.5, 3500) := by
  have hf : "M5".front = 'M' := by decide
  simp only [spectralAdjusted, hf, dict_M, parse_M5]
  norm_num

/-- Claim C7: for every spectral seed whose leading letter is in the table,
the remainder is parsed as the subclass when present and fully numeric (its
decimal value, i.e. `String.toNat?`), else the subclass is 0, and the adjusted
values are `reference * (1 + 0.01 * (5 - subclass))`; for "M5" the adjustment
factor is exactly 1 and the adjusted values are the raw M reference values
(0.5 solar masses, 3500 K). -/
theorem C7_subclass_adjustment :
    (∀ (st : String) (bm bt : ℝ), spectral_type_dict st.front = some (bm, bt) →
      spectralAdjusted st =
        some (bm * (1 + 0.01 * (5 - (parseSubclass st : ℝ))),
              bt * (1 + 0.01 * (5 - (parseSubclass st : ℝ))))) ∧
    (∀ (st : String) (n : ℕ), (st.drop 1).toNat? = some n →
      parseSubclass st = n) ∧
    (∀ st : String, (st.drop 1).toNat? = none → parseSubclass st = 0) ∧
    spectralAdjusted "M5" = some (0.5, 3500) ∧
    1 + 0.01 * (5 - (parseSubclass "M5" : ℝ)) = 1 := by
  refine ⟨?_, ?_, ?_, spectralAdjusted_M5, by rw [parse_M5]; norm_num⟩
  · intro st bm bt h
    simp only [spectralAdjusted]
    rw [h]
  · intro st n h
    rw [String.toNat?] at h
    split at h
    · rename_i hnat
      rw [String.isNat] at hnat
      simp only [Bool.and_eq_true, Bool.not_eq_true'] at hnat
      obtain ⟨hne, hall⟩ := hnat
      have hlen : 1 < st.length := by
        by_contra hle
        push_neg at hle
        have hd : (st.drop 1).data = [] := by
          rw [String.data_drop]
          have hl : st.length = st.data.length := rfl
          have : (st.data.drop 1).length = 0 := by
            rw [List.length_drop]
            omega
          exact List.length_eq_zero.mp this
        have he : st.drop 1 = "" := by
          apply String.ext
          rw [hd]
        have : (st.drop 1).isEmpty = true := (String.isEmpty_iff _).mpr he
        rw [hne] at this
        exact Bool.false_ne_true this
      rw [parseSubclass, if_pos ⟨hlen, hall⟩]
      exact Option.some.inj h
    · exact absurd h (by simp)
  · intro st h
    rw [String.toNat?] at h
    split at h
    · exact absurd h (by simp)
    · rename_i hnat
      rw [parseSubclass, if_neg ?_]
      rintro ⟨hlen, hdig⟩
      apply hnat
      rw [String.isNat]
      simp only [Bool.and_eq_true, Bool.not_eq_true']
      refine ⟨?_, hdig⟩
      cases hb : (st.drop 1).isEmpty with
      | false => rfl
      | true =>
        exfalso
        have he : st.drop 1 = "" := (String.isEmpty_iff _).mp hb
        have hd : st.data.drop 1 = [] := by
          rw [← String.data_drop st 1, he]
        have h0 : st.data.length - 1 = 0 := by
          rw [← List.length_drop, hd]
          rfl
        have hl : st.length = st.data.length := rfl
        omega

/-- Witness for C7 at the concrete seed "M42". -/
theorem C7_subclass_adjustment_witness :
    spectral_type_dict ("M42".front) = some (0.5, 3500) ∧
    ("M42".drop 1).toNat? = some 42 ∧
    spectralAdjusted "M42" =
      some (0.5 * (1 + 0.01 * (5 - (parseSubclass "M42" : ℝ))),
            3500 * (1 + 0.01 * (5 - (parseSubclass "M42" : ℝ)))) ∧
    parseSubclass "M42" = 42 := by
  have hf : "M42".front = 'M' := by decide
  have hd : spectral_type_dict ("M42".front) = some (0.5, 3500) := by
    rw [hf, dict_M]
  have ht : ("M42".drop 1).toNat? = some 42 := by
    simp only [String.toNat?, String.isNat, String.drop_eq, String.all_eq,
      String.foldl_eq, String.isEmpty_iff]
    decide
  exact ⟨hd, ht, C7_subclass_adjustment.1 "M42" 0.5 3500 hd,
    C7_subclass_adjustment.2.1 "M42" 42 ht⟩

/-- Claim C8: in the spectral path, when the adjusted mass is `< 0.43` only
the lifespan is computed (`15 * mass ^ -1.8`) and the pipeline stops — the
temperature keeps the adjusted reference value and the stored spectral type is
the caller's input verbatim; when the adjusted mass is `≥ 0.43` the full mass
path runs, overwriting temperature, spectral type and lifespan with
mass-derived values. -/
theorem C8_lowmass_stops_highmass_overwrites :
    ∀ (oracle : Option ℝ) (s : StarState) (st : String) (m t : ℝ),
    s.spectral_type = some st → st ≠ "" → spectralAdjusted st = some (m, t) →
    (m < 0.43 →
      calculate_from_spectral_type oracle s =
        Except.ok { s with mass := some m, temperature := some t,
                           lifespan := some (15 * m ^ (-1.8 : ℝ)) } ∧
      (calculate_from_spectral_type oracle s).map (fun r => r.spectral_type) =
        Except.ok (some st) ∧
      (calculate_from_spectral_type oracle s).map (fun r => r.temperature) =
        Except.ok (some t) ∧
      (calculate_from_spectral_type oracle s).map (fun r => r.metallicity) =
        Except.ok s.metallicity) ∧
    (0.43 ≤ m →
      (calculate_from_spectral_type oracle s).map (fun r => r.mass) =
        Except.ok (some m) ∧
      (calculate_from_spectral_type oracle s).map (fun r => r.temperature) =
        Except.ok (some (5800 * m ^ (0.505 : ℝ))) ∧
      (calculate_from_spectral_type oracle s).map (fun r => r.spectral_type) =
        Except.ok (some (determine_spectral_type_with_subclass
          (5800 * m ^ (0.505 : ℝ)))) ∧
      (calculate_from_spectral_type oracle s).map (fun r => r.lifespan) =
        Except.ok (some (10 * m ^ (-2.5 : ℝ)))) := by
  intro oracle s st m t hsp hne hadj
  have hunfold : calculate_from_spectral_type oracle s =
      (if m < 0.43 then
        Except.ok { s with mass := some m, temperature := some t,
                           lifespan := some (15 * m ^ (-1.8 : ℝ)) }
      else
        calculate_from_mass oracle
          { s with mass := some m, temperature := some t }) := by
    rcases s with ⟨ms, ts, ls, sps, mets⟩
    cases hsp
    simp only [calculate_from_spectral_type]
    rw [if_neg hne, hadj]
  constructor
  · intro hlt
    rw [hunfold, if_pos hlt]
    exact ⟨rfl, by simp [Except.map, hsp], rfl, rfl⟩
  · intro hge
    have h0 : m ≠ 0 := by
      intro e
      rw [e] at hge
      norm_num at hge
    rw [hunfold, if_neg (not_lt.mpr hge)]
    rw [calculate_from_mass_ok oracle _ m rfl h0]
    refine ⟨rfl, rfl, rfl, ?_⟩
    simp only [Except.map]
    rw [if_pos hge]

/-- Witness for C8 at the concrete seed "M5" (adjusted mass 0.5, which is
above the 0.43 threshold, so the full mass path runs). -/
theorem C8_lowmass_stops_highmass_overwrites_witness :
    (init none none none (some "M5") none).spectral_type = some "M5" ∧
    "M5" ≠ "" ∧ spectralAdjusted "M5" = some (0.5, 3500) ∧
    (0.43 : ℝ) ≤ 0.5 ∧
    (calculate_from_spectral_type none
        (init none none none (some "M5") none)).map (fun r => r.temperature) =
      Except.ok (some (5800 * (0.5 : ℝ) ^ (0.505 : ℝ))) := by
  refine ⟨rfl, by decide, spectralAdjusted_M5, by norm_num, ?_⟩
  exact ((C8_lowmass_stops_highmass_overwrites none _ "M5" 0.5 3500 rfl
    (by decide) spectralAdjusted_M5).2 (by norm_num)).2.1

/-- Every entry of the reference table has positive mass and temperature. -/
lemma spectral_type_dict_pos (c : Char) (bm bt : ℝ)
    (h : spectral_type_dict c = some (bm, bt)) : 0 < bm ∧ 0 < bt := by
  rw [spectral_type_dict] at h
  split_ifs at h
  all_goals
    simp only [Option.some.injEq, Prod.mk.injEq] at h
  all_goals
    obtain ⟨rfl, rfl⟩ := h
  all_goals
    exact ⟨by norm_num, by norm_num⟩

/-- The adjustment factor is positive whenever the subclass is at most 104. -/
lemma adjustment_pos (n : ℕ) (hn : n ≤ 104) :
    0 < 1 + 0.01 * (5 - (n : ℝ)) := by
  have h : (n : ℝ) ≤ 104 := by exact_mod_cast hn
  linarith

/-- On a positive mass with positive metallicity attribute, the mass path
succeeds and every numeric field of the result is positive. -/
lemma calculate_from_mass_pos (oracle : Option ℝ) (s : StarState) (m z : ℝ)
    (hm : s.mass = some m) (h0 : 0 < m) (hz : s.metallicity = some z) :
    ∃ r, calculate_from_mass oracle s = Except.ok r ∧
      r.mass = some m ∧
      (∃ x, r.temperature = some x ∧ 0 < x) ∧
      (∃ x, r.lifespan = some x ∧ 0 < x) ∧
      r.metallicity = some z := by
  rcases s with ⟨ms, ts, ls, sps, mets⟩
  cases hm
  cases hz
  rw [calculate_from_mass_ok oracle _ m rfl (ne_of_gt h0)]
  refine ⟨_, rfl, rfl,
    ⟨_, rfl, mul_pos (by norm_num) (Real.rpow_pos_of_pos h0 _)⟩,
    ⟨_, rfl, ?_⟩, ?_⟩
  · split_ifs
    · exact mul_pos (by norm_num) (Real.rpow_pos_of_pos h0 _)
    · exact mul_pos (by norm_num) (Real.rpow_pos_of_pos h0 _)
  · rw [if_neg (by simp : ¬ (some z = (none : Option ℝ)))]

/-- Unfolding of the temperature path on a truthy temperature attribute. -/
lemma calculate_from_temperature_unfold (oracle : Option ℝ) (s : StarState)
    (t : ℝ) (ht : s.temperature = some t) (h0 : t ≠ 0) :
    calculate_from_temperature oracle s =
      calculate_from_mass oracle
        { s with mass := some ((t / 5800) ^ ((1 : ℝ) / 0.505)) } := by
  rcases s with ⟨ms, ts, ls, sps, mets⟩
  cases ht
  simp only [calculate_from_temperature]
  rw [if_neg h0]

/-- Unfolding of the spectral path on a truthy spectral type whose adjusted
values are known. -/
lemma calculate_from_spectral_type_unfold (oracle : Option ℝ) (s : StarState)
    (st : String) (m t : ℝ) (hsp : s.spectral_type = some st) (hne : st ≠ "")
    (hadj : spectralAdjusted st = some (m, t)) :
    calculate_from_spectral_type oracle s =
      if m < 0.43 then
        Except.ok { s with mass := some m, temperature := some t,
                           lifespan := some (15 * m ^ (-1.8 : ℝ)) }
      else
        calculate_from_mass oracle
          { s with mass := some m, temperature := some t } := by
  rcases s with ⟨ms, ts, ls, sps, mets⟩
  cases hsp
  simp only [calculate_from_spectral_type]
  rw [if_neg hne, hadj]

/-- Unfolding of the spectral path when the leading letter is not in the
table. -/
lemma calculate_from_spectral_type_unknown (oracle : Option ℝ) (s : StarState)
    (st : String) (hsp : s.spectral_type = some st) (hne : st ≠ "")
    (hadj : spectralAdjusted st = none) :
    calculate_from_spectral_type oracle s =
      Except.error Err.unknownSpectralType := by
  rcases s with ⟨ms, ts, ls, sps, mets⟩
  cases hsp
  simp only [calculate_from_spectral_type]
  rw [if_neg hne, hadj]

/-- The subclass parsed from "M200" is 200. -/
lemma parse_M200 : parseSubclass "M200" = 200 := by
  simp only [parseSubclass, String.drop_eq, String.all_eq, String.foldl_eq]
  decide

/-- The adjusted values for "M200": the adjustment factor
`1 + 0.01 * (5 - 200) = -0.95` is negative, so mass and temperature come out
negative. -/
lemma spectralAdjusted_M200 : spectralAdjusted "M200" = some (-0.475, -3325) := by
  have hf : "M200".front = 'M' := by decide
  simp only [spectralAdjusted, hf, dict_M, parse_M200]
  norm_num

/-- Claim C6 counterexample: the spectral seed "M200" (leading letter in the
table, fully numeric subclass accepted by the parser) resolves without error
to a record with negative mass `-0.475`, refuting the positivity invariant as
stated. -/
theorem C6_counterexample :
    (calculate_properties none (init none none none (some "M200") none)).map
      (fun r => r.mass) = Except.ok (some (-0.475)) ∧ ((-0.475 : ℝ) < 0) := by
  constructor
  · rw [calculate_properties,
      if_neg (fun h => h.1 rfl :
        ¬ truthyR (init none none none (some "M200") none).mass),
      if_neg (fun h => h.1 rfl :
        ¬ truthyR (init none none none (some "M200") none).temperature),
      if_pos (⟨fun h => Option.noConfusion h,
        fun h => absurd (Option.some.inj h) (by decide)⟩ :
          truthyS (init none none none (some "M200") none).spectral_type)]
    rw [calculate_from_spectral_type_unfold none _ "M200" (-0.475) (-3325) rfl
      (by decide) spectralAdjusted_M200]
    rw [if_pos (by norm_num : (-0.475 : ℝ) < 0.43)]
    rfl
  · norm_num

/-- Claim C6 amended: for every seed of the stated shapes — positive mass,
positive temperature, or a spectral string with a recognised leading letter
whose parsed subclass is at most 104 (so that the adjustment factor stays
positive) — and metallicity absent or positive, resolution succeeds and the
resolved mass, temperature, lifespan and metallicity are all positive. -/
theorem C6_amended_resolved_fields_positive :
    ∀ (oracle metArg massArg temperatureArg : Option ℝ)
      (spectralArg : Option String),
    (metArg = none ∨ ∃ z, metArg = some z ∧ 0 < z) →
    ((∃ m, massArg = some m ∧ 0 < m) ∨
      (massArg = none ∧ ∃ t, temperatureArg = some t ∧ 0 < t) ∨
      (massArg = none ∧ temperatureArg = none ∧
        ∃ st, spectralArg = some st ∧ st ≠ "" ∧
          (∃ bm bt, spectral_type_dict st.front = some (bm, bt)) ∧
          parseSubclass st ≤ 104)) →
    ∃ r, calculate_properties oracle
        (init massArg temperatureArg none spectralArg metArg) = Except.ok r ∧
      (∃ x, r.mass = some x ∧ 0 < x) ∧
      (∃ x, r.temperature = some x ∧ 0 < x) ∧
      (∃ x, r.lifespan = some x ∧ 0 < x) ∧
      (∃ x, r.metallicity = some x ∧ 0 < x) := by
  intro oracle metArg massArg temperatureArg spectralArg hmet hseed
  have hz0 : 0 < metArg.getD 1 := by
    rcases hmet with rfl | ⟨z, rfl, hz⟩
    · norm_num
    · exact hz
  rcases hseed with ⟨m, rfl, hm0⟩ | ⟨rfl, t, rfl, ht0⟩ |
    ⟨rfl, rfl, st, rfl, hne, ⟨bm, bt, hdict⟩, hsub⟩
  · rw [calculate_properties,
      if_pos (⟨fun h => Option.noConfusion h,
        fun h => absurd (Option.some.inj h) (ne_of_gt hm0)⟩ :
          truthyR (init (some m) temperatureArg none spectralArg metArg).mass)]
    obtain ⟨r, hr, h1, h2, h3, h4⟩ :=
      calculate_from_mass_pos oracle
        (init (some m) temperatureArg none spectralArg metArg) m
        (metArg.getD 1) rfl hm0 rfl
    exact ⟨r, hr, ⟨m, h1, hm0⟩, h2, h3, ⟨_, h4, hz0⟩⟩
  · rw [calculate_properties,
      if_neg (fun h => h.1 rfl :
        ¬ truthyR (init none (some t) none spectralArg metArg).mass),
      if_pos (⟨fun h => Option.noConfusion h,
        fun h => absurd (Option.some.inj h) (ne_of_gt ht0)⟩ :
          truthyR (init none (some t) none spectralArg metArg).temperature)]
    rw [calculate_from_temperature_unfold oracle _ t rfl (ne_of_gt ht0)]
    have hmp : 0 < (t / 5800) ^ ((1 : ℝ) / 0.505) :=
      Real.rpow_pos_of_pos (by positivity) _
    obtain ⟨r, hr, h1, h2, h3, h4⟩ :=
      calculate_from_mass_pos oracle
        { init none (some t) none spectralArg metArg with
          mass := some ((t / 5800) ^ ((1 : ℝ) / 0.505)) }
        ((t / 5800) ^ ((1 : ℝ) / 0.505)) (metArg.getD 1) rfl hmp rfl
    exact ⟨r, hr, ⟨_, h1, hmp⟩, h2, h3, ⟨_, h4, hz0⟩⟩
  · rw [calculate_properties,
      if_neg (fun h => h.1 rfl :
        ¬ truthyR (init none none none (some st) metArg).mass),
      if_neg (fun h => h.1 rfl :
        ¬ truthyR (init none none none (some st) metArg).temperature),
      if_pos (⟨fun h => Option.noConfusion h,
        fun h => absurd (Option.some.inj h) hne⟩ :
          truthyS (init none none none (some st) metArg).spectral_type)]
    have hadj : spectralAdjusted st =
        some (bm * (1 + 0.01 * (5 - (parseSubclass st : ℝ))),
              bt * (1 + 0.01 * (5 - (parseSubclass st : ℝ)))) := by
      simp only [spectralAdjusted]
      rw [hdict]
    obtain ⟨hbm, hbt⟩ := spectral_type_dict_pos _ _ _ hdict
    have hfac : 0 < 1 + 0.01 * (5 - (parseSubclass st : ℝ)) :=
      adjustment_pos _ hsub
    have hmpos : 0 < bm * (1 + 0.01 * (5 - (parseSubclass st : ℝ))) :=
      mul_pos hbm hfac
    have htpos : 0 < bt * (1 + 0.01 * (5 - (parseSubclass st : ℝ))) :=
      mul_pos hbt hfac
    rw [calculate_from_spectral_type_unfold oracle _ st _ _ rfl hne hadj]
    by_cases hlow : bm * (1 + 0.01 * (5 - (parseSubclass st : ℝ))) < 0.43
    · rw [if_pos hlow]
      exact ⟨_, rfl, ⟨_, rfl, hmpos⟩, ⟨_, rfl, htpos⟩,
        ⟨_, rfl, mul_pos (by norm_num) (Real.rpow_pos_of_pos hmpos _)⟩,
        ⟨_, rfl, hz0⟩⟩
    · rw [if_neg hlow]
      obtain ⟨r, hr, h1, h2, h3, h4⟩ :=
        calculate_from_mass_pos oracle
          { init none none none (some st) metArg with
            mass := some (bm * (1 + 0.01 * (5 - (parseSubclass st : ℝ)))),
            temperature := some (bt * (1 + 0.01 * (5 - (parseSubclass st : ℝ)))) }
          (bm * (1 + 0.01 * (5 - (parseSubclass st : ℝ)))) (metArg.getD 1)
          rfl hmpos rfl
      exact ⟨r, hr, ⟨_, h1, hmpos⟩, h2, h3, ⟨_, h4, hz0⟩⟩

/-- Witness for the amended C6 at the concrete mass seed 1. -/
theorem C6_amended_resolved_fields_positive_witness :
    ((none : Option ℝ) = none ∨ ∃ z, (none : Option ℝ) = some z ∧ 0 < z) ∧
    (∃ m, (some (1 : ℝ)) = some m ∧ 0 < m) ∧
    ∃ r, calculate_properties none (init (some 1) none none none none) =
        Except.ok r ∧
      (∃ x, r.mass = some x ∧ 0 < x) ∧
      (∃ x, r.temperature = some x ∧ 0 < x) ∧
      (∃ x, r.lifespan = some x ∧ 0 < x) ∧
      (∃ x, r.metallicity = some x ∧ 0 < x) := by
  refine ⟨Or.inl rfl, ⟨1, rfl, by norm_num⟩, ?_⟩
  exact C6_amended_resolved_fields_positive none none (some 1) none none
    (Or.inl rfl) (Or.inl ⟨1, rfl, by norm_num⟩)

/-- The mass path with a `some` metallicity attribute never consults the
oracle and maps the metallicity through unchanged. -/
lemma calculate_from_mass_metallicity (oracle oracle2 : Option ℝ)
    (s : StarState) (z : ℝ) (hz : s.metallicity = some z) :
    calculate_from_mass oracle s = calculate_from_mass oracle2 s ∧
    (calculate_from_mass oracle s).map (fun r => r.metallicity) =
      (calculate_from_mass oracle s).map (fun _ => some z) := by
  rcases s with ⟨ms, ts, ls, sps, mets⟩
  cases hz
  cases ms with
  | none => exact ⟨rfl, rfl⟩
  | some m =>
    simp only [calculate_from_mass]
    by_cases h : m = 0
    · rw [if_pos h, if_pos h]
      exact ⟨rfl, rfl⟩
    · rw [if_neg h, if_neg h,
        if_neg (by simp : ¬ (some z = (none : Option ℝ))),
        if_neg (by simp : ¬ (some z = (none : Option ℝ)))]
      exact ⟨rfl, rfl⟩

/-- Same statement for the temperature path. -/
lemma calculate_from_temperature_metallicity (oracle oracle2 : Option ℝ)
    (s : StarState) (z : ℝ) (hz : s.metallicity = some z) :
    calculate_from_temperature oracle s = calculate_from_temperature oracle2 s ∧
    (calculate_from_temperature oracle s).map (fun r => r.metallicity) =
      (calculate_from_temperature oracle s).map (fun _ => some z) := by
  rcases s with ⟨ms, ts, ls, sps, mets⟩
  cases hz
  cases ts with
  | none => exact ⟨rfl, rfl⟩
  | some t =>
    simp only [calculate_from_temperature]
    by_cases h : t = 0
    · rw [if_pos h, if_pos h]
      exact ⟨rfl, rfl⟩
    · rw [if_neg h, if_neg h]
      exact calculate_from_mass_metallicity oracle oracle2
        ⟨some ((t / 5800) ^ ((1 : ℝ) / 0.505)), some t, ls, sps, some z⟩ z rfl

/-- Same statement for the spectral path. -/
lemma calculate_from_spectral_type_metallicity (oracle oracle2 : Option ℝ)
    (s : StarState) (z : ℝ) (hz : s.metallicity = some z) :
    calculate_from_spectral_type oracle s =
      calculate_from_spectral_type oracle2 s ∧
    (calculate_from_spectral_type oracle s).map (fun r => r.metallicity) =
      (calculate_from_spectral_type oracle s).map (fun _ => some z) := by
  rcases s with ⟨ms, ts, ls, sps, mets⟩
  cases hz
  cases sps with
  | none => exact ⟨rfl, rfl⟩
  | some st =>
    by_cases h : st = ""
    · subst h
      simp [calculate_from_spectral_type, Except.map]
    · cases hadj : spectralAdjusted st with
      | none =>
        rw [calculate_from_spectral_type_unknown oracle _ st rfl h hadj,
          calculate_from_spectral_type_unknown oracle2 _ st rfl h hadj]
        exact ⟨rfl, rfl⟩
      | some p =>
        rcases p with ⟨m, t⟩
        rw [calculate_from_spectral_type_unfold oracle _ st m t rfl h hadj,
          calculate_from_spectral_type_unfold oracle2 _ st m t rfl h hadj]
        by_cases hm : m < 0.43
        · rw [if_pos hm, if_pos hm]
          exact ⟨rfl, rfl⟩
        · rw [if_neg hm, if_neg hm]
          exact calculate_from_mass_metallicity oracle oracle2
            ⟨some m, some t, ls, some st, some z⟩ z rfl

/-- The whole resolver with a `some` metallicity attribute is independent of
the oracle and passes the metallicity through unchanged. -/
lemma calculate_properties_metallicity (oracle oracle2 : Option ℝ)
    (s : StarState) (z : ℝ) (hz : s.metallicity = some z) :
    calculate_properties oracle s = calculate_properties oracle2 s ∧
    (calculate_properties oracle s).map (fun r => r.metallicity) =
      (calculate_properties oracle s).map (fun _ => some z) := by
  simp only [calculate_properties]
  split_ifs
  · exact calculate_from_mass_metallicity oracle oracle2 s z hz
  · exact calculate_from_temperature_metallicity oracle oracle2 s z hz
  · exact calculate_from_spectral_type_metallicity oracle oracle2 s z hz
  · exact ⟨rfl, rfl⟩

/-- Claim C9 counterexample: with metallicity not supplied and a mass seed,
the resolved metallicity is the constructor default 1.0 and the outcome is
identical whatever the external input collaborator would have answered (here
42) — no synchronous request to the collaborator is made during mass-based
derivation, because `__init__` already replaced the absent metallicity. -/
theorem C9_counterexample :
    (calculate_properties (some 42) (init (some 1) none none none none)).map
      (fun r => r.metallicity) = Except.ok (some 1) ∧
    calculate_properties (some 42) (init (some 1) none none none none) =
      calculate_properties none (init (some 1) none none none none) := by
  constructor
  · rw [calculate_properties,
      if_pos (⟨fun h => Option.noConfusion h,
        fun h => absurd (Option.some.inj h) one_ne_zero⟩ :
          truthyR (init (some 1) none none none none).mass)]
    rw [calculate_from_mass_ok (some 42) _ 1 rfl one_ne_zero]
    simp [Except.map, init]
  · exact (calculate_properties_metallicity (some 42) none _ 1 rfl).1

/-- Claim C9 amended: a supplied metallicity passes through every resolution
path unchanged into the final record; an absent metallicity is defaulted to
1.0 already by the constructor, so the interactive prompt inside mass-based
derivation is unreachable and the resolution result never depends on the
external input collaborator. -/
theorem C9_amended_metallicity_default :
    ∀ (oracle oracle2 massArg temperatureArg lifespanArg : Option ℝ)
      (spectralArg : Option String) (z : ℝ),
    (calculate_properties oracle
        (init massArg temperatureArg lifespanArg spectralArg (some z))).map
        (fun r => r.metallicity) =
      (calculate_properties oracle
        (init massArg temperatureArg lifespanArg spectralArg (some z))).map
        (fun _ => some z) ∧
    calculate_properties oracle
        (init massArg temperatureArg lifespanArg spectralArg none) =
      calculate_properties oracle2
        (init massArg temperatureArg lifespanArg spectralArg (some 1)) := by
  intro oracle oracle2 massArg temperatureArg lifespanArg spectralArg z
  constructor
  · exact (calculate_properties_metallicity oracle oracle
      (init massArg temperatureArg lifespanArg spectralArg (some z)) z rfl).2
  · exact (calculate_properties_metallicity oracle oracle2
      (init massArg temperatureArg lifespanArg spectralArg none) 1 rfl).1

/-- Witness for the amended C9 at a concrete mass seed, two distinct oracle
replies, and a supplied metallicity 2. -/
theorem C9_amended_metallicity_default_witness :
    (calculate_properties none (init (some 1) none none none (some 2))).map
        (fun r => r.metallicity) =
      (calculate_properties none (init (some 1) none none none (some 2))).map
        (fun _ => some 2) ∧
    calculate_properties none (init (some 1) none none none none) =
      calculate_properties (some 7) (init (some 1) none none none (some 1)) :=
  C9_amended_metallicity_default none (some 7) (some 1) none none none 2

end StellarCalc
